import Mathlib

/-!
Shallow embedding of the `lazily` deferred-image-loading controller
(`src/index.js`) and verification of its specification claims.

The embedding models:
* JavaScript option values (`JSVal`) as far as the configuration validator
  inspects them (`typeof`, string length, numeric range, `undefined`);
* the option-destructuring defaults of the exported factory (`lazily`);
* the configuration validator (`handleConfigErrors`);
* the image loader chain `loadImage` / `fetchImages` / `applyImage` /
  `handleImageError`, with promise settlement (first settle wins) and
  user-callback behaviour (present / throwing) made explicit;
* the controller state machine (`init` / `update` / `destroy` / `onEntry` /
  `resetState`) over an explicit state record, with a log of every
  IntersectionObserver instance ever created and of every load dispatched.
-/

deriving instance DecidableEq for Except

namespace Lazily

/-- A JavaScript number as far as the validator distinguishes them:
`NaN` or an actual rational value. -/
inductive JSNum where
  | nan : JSNum
  | val : ℚ → JSNum
deriving DecidableEq

/-- JavaScript values, abstracted to the shapes the configuration validator
distinguishes with `typeof` and `!== undefined`. -/
inductive JSVal where
  | undef : JSVal
  | null : JSVal
  | str : String → JSVal
  | num : JSNum → JSVal
  | bool : Bool → JSVal
  | fn : JSVal
  | obj : JSVal
deriving DecidableEq

/-- `optionValue !== undefined && (typeof optionValue !== 'string' || optionValue.length === 0)`:
the validator's per-option failure condition from `handleConfigErrors`. -/
def badStringOption : JSVal → Bool
  | .undef => false
  | .str s => s.length == 0
  | _ => true

/-- `typeof threshold !== 'number' || !(threshold >= 0 && threshold <= 1)`:
the validator's threshold failure condition (`NaN` fails both comparisons). -/
def thresholdBad : JSVal → Bool
  | .num (.val q) => !(decide (0 ≤ q) && decide (q ≤ 1))
  | _ => true

/-- The validated option record, i.e. the destructured closure variables of
the factory (`selector`, `loadClass`, `errorClass`, `rootId`, `rootMargin`,
`threshold`) as the validator sees them. -/
structure Config where
  selector : JSVal
  loadClass : JSVal
  errorClass : JSVal
  rootId : JSVal
  rootMargin : JSVal
  threshold : JSVal
deriving DecidableEq

/-- The `stringOptionsMap` object literal of `handleConfigErrors`, in its
insertion order (the order `Object.keys` iterates). -/
def stringOptionsMap (c : Config) : List (String × JSVal) :=
  [("selector", c.selector), ("loadClass", c.loadClass), ("errorClass", c.errorClass),
   ("rootId", c.rootId), ("rootMargin", c.rootMargin)]

/-- The error message thrown for an invalid string option. -/
def stringOptionError (name : String) : String :=
  "Expected " ++ name ++ " to be a string with length > 0"

/-- The error message thrown for an invalid threshold. -/
def thresholdError : String :=
  "Expected threshold to be a number between 0 and 1"

/-- `handleConfigErrors` from `src/index.js`: throws for the first string
option that is present but not a non-empty string (the `forEach` body throws,
aborting the iteration), then checks the threshold. -/
def handleConfigErrors (c : Config) : Except String Unit :=
  match (stringOptionsMap c).find? (fun p => badStringOption p.2) with
  | some p => .error (stringOptionError p.1)
  | none =>
      if thresholdBad c.threshold then .error thresholdError
      else .ok ()

/-- The raw options object passed to the factory; `undef` in a field means
the caller did not pass that option. -/
structure Options where
  selector : JSVal
  loadClass : JSVal
  errorClass : JSVal
  rootId : JSVal
  rootMargin : JSVal
  threshold : JSVal
deriving DecidableEq

/-- Calling the factory with no options at all (`lazily()`). -/
def noOptions : Options :=
  ⟨.undef, .undef, .undef, .undef, .undef, .undef⟩

/-- The destructuring defaults of the exported factory function: a default
applies exactly when the passed value is `undefined`; `rootId` has no
default. -/
def lazily (o : Options) : Config where
  selector := if o.selector = .undef then .str ".js-lazily-image" else o.selector
  loadClass := if o.loadClass = .undef then .str "has-loaded" else o.loadClass
  errorClass := if o.errorClass = .undef then .str "has-error" else o.errorClass
  rootId := o.rootId
  rootMargin := if o.rootMargin = .undef then .str "0px 0px 0px 0px" else o.rootMargin
  threshold := if o.threshold = .undef then .num (.val 0) else o.threshold

/-- The configuration produced by `lazily()` with no overrides. -/
def defaultConfig : Config := lazily noOptions

/-- All string options pass the validator's per-option check. -/
def allStringOptionsOk (c : Config) : Bool :=
  (stringOptionsMap c).all (fun p => !badStringOption p.2)

/-- The threshold passes the validator's check. -/
def thresholdOk (c : Config) : Bool := !thresholdBad c.threshold

/-- The first string option (in `stringOptionsMap` order) failing the
validator's check, if any. -/
def firstBadStringOption (c : Config) : Option String :=
  ((stringOptionsMap c).find? (fun p => badStringOption p.2)).map (·.1)

/-! ## Document elements and the resource loader -/

/-- A DOM `<img>` element as the controller reads and writes it.
`matchesSelector` abstracts the external document-query collaborator:
whether `querySelectorAll(selector)` returns this element.
Attribute values are `Option String` (`none` = attribute absent,
as `getAttribute` returns `null`). -/
structure Elem where
  id : ℕ
  matchesSelector : Bool
  dataSrc : Option String
  dataSrcset : Option String
  src : Option String
  srcset : Option String
  classes : List String
deriving DecidableEq

/-- JavaScript truthiness of a `getAttribute` result: `null` and the empty
string are falsy. -/
def truthyAttr : Option String → Bool
  | none => false
  | some s => s.length != 0

/-- `hasNotBeenLoaded`: `img.hasAttribute('data-src') || img.hasAttribute('data-srcset')`
(an attribute present with an empty value still counts as present). -/
def hasNotBeenLoaded (e : Elem) : Bool :=
  e.dataSrc.isSome || e.dataSrcset.isSome

/-- `getElementsAsArray`: the document elements matching the selector that
have not already been loaded, in document order. -/
def getElementsAsArray (doc : List Elem) : List Elem :=
  doc.filter (fun e => e.matchesSelector && hasNotBeenLoaded e)

/-- `stripDataAttributes`: remove `data-src` and `data-srcset`. -/
def stripDataAttributes (e : Elem) : Elem :=
  { e with dataSrc := none, dataSrcset := none }

/-- Behaviour of a user-supplied callback option: whether it was provided
(as a function) and whether invoking it throws. -/
structure Callback where
  present : Bool
  throws : Bool
deriving DecidableEq

/-- The loader's closure configuration: the (validated, hence string)
class names and the two optional callbacks. -/
structure LoaderCfg where
  loadClass : String
  errorClass : String
  loadCallback : Callback
  errorCallback : Callback
deriving DecidableEq

/-- `applyImage`: set `src`/`srcset` from the resolved URLs, strip the data
attributes, add `loadClass` if missing, then invoke `loadCallback` if
provided. Returns the mutated element, whether the load callback was
invoked, and whether it threw (mutations precede the callback, so they
persist even when it throws). -/
def applyImage (cfg : LoaderCfg) (img : Elem) (src srcset : Option String) :
    Elem × Bool × Bool :=
  let image := img
  let image := if truthyAttr src then { image with src := src } else image
  let image := if truthyAttr srcset then { image with srcset := srcset } else image
  let image := stripDataAttributes image
  let image :=
    if cfg.loadClass ∈ image.classes then image
    else { image with classes := image.classes ++ [cfg.loadClass] }
  if cfg.loadCallback.present then (image, true, cfg.loadCallback.throws)
  else (image, false, false)

/-- `handleImageError`: strip the data attributes, add `errorClass` if
missing, then invoke `errorCallback` if provided. Returns the mutated
element, whether the error callback was invoked, and whether it threw. -/
def handleImageError (cfg : LoaderCfg) (img : Elem) : Elem × Bool × Bool :=
  let image := stripDataAttributes img
  let image :=
    if cfg.errorClass ∈ image.classes then image
    else { image with classes := image.classes ++ [cfg.errorClass] }
  if cfg.errorCallback.present then (image, true, cfg.errorCallback.throws)
  else (image, false, false)

/-- An event later fired by the probe `Image` created in `fetchImages`. -/
inductive ImgEvent where
  | load : ImgEvent
  | error : ImgEvent
deriving DecidableEq

/-- A promise settlement of `fetchImages`. -/
inductive Settle where
  | resolved : Option String → Option String → Settle
  | rejected : Settle
deriving DecidableEq

/-- `fetchImages`: the executor calls `reject()` synchronously when both
URLs are falsy (without returning, so the handlers are still bound), then
`onload` resolves with the URLs and `onerror` rejects. A promise keeps its
first settlement, so the result is the first settlement in program order;
`none` means the promise never settles. -/
def fetchImages (srcUrl srcsetUrls : Option String)
    (events : List ImgEvent) : Option Settle :=
  let settles :=
    (if !truthyAttr srcUrl && !truthyAttr srcsetUrls then [Settle.rejected] else [])
      ++ events.map (fun ev =>
        match ev with
        | .load => Settle.resolved srcUrl srcsetUrls
        | .error => Settle.rejected)
  settles.head?

/-- Observable outcome of one `loadImage` call: the element's final state,
which user callbacks were invoked, and whether an exception escaped the
promise chain (an unhandled rejection reaching the embedding environment). -/
structure LoadResult where
  img : Elem
  loadCallbackInvoked : Bool
  errorCallbackInvoked : Bool
  uncaught : Bool
deriving DecidableEq

/-- `loadImage`: read the data attributes, run
`fetchImages(...).then(({src, srcset}) => applyImage(img, src, srcset)).catch(() => handleImageError(img))`.
An exception thrown inside the `then` handler (e.g. by `loadCallback`) is
caught by the `catch` handler, which runs `handleImageError` on the (already
mutated) element; an exception thrown inside the `catch` handler escapes. -/
def loadImage (cfg : LoaderCfg) (img : Elem) (events : List ImgEvent) :
    LoadResult :=
  let srcUrl := img.dataSrc
  let srcsetUrls := img.dataSrcset
  match fetchImages srcUrl srcsetUrls events with
  | none => ⟨img, false, false, false⟩
  | some (.resolved src srcset) =>
      let a := applyImage cfg img src srcset
      if a.2.2 then
        let h := handleImageError cfg a.1
        ⟨h.1, a.2.1, h.2.1, h.2.2⟩
      else ⟨a.1, a.2.1, false, false⟩
  | some .rejected =>
      let h := handleImageError cfg img
      ⟨h.1, false, h.2.1, h.2.2⟩

/-! ## The controller state machine -/

/-- One IntersectionObserver instance, identified by creation order.
`connected` is false once `disconnect()` has been called on it;
`observed` is the set of element ids it currently watches. -/
structure Watcher where
  id : ℕ
  connected : Bool
  observed : List ℕ
deriving DecidableEq

/-- The controller's module-scoped state. `imageArray` and `loadsIssued`
hold element ids; `imageCount : Option ℤ` models the JavaScript number with
`none` standing for the initial `undefined` (which, like `NaN`, never
compares `=== 0`); `observer` is the id of the currently referenced
Watcher, if any; `watchers` logs every Watcher instance ever created;
`loadsIssued` logs every `loadImage` dispatch, in order. -/
structure CtrlState where
  imageArray : List ℕ
  imageCount : Option ℤ
  observer : Option ℕ
  watchers : List Watcher
  nextWatcherId : ℕ
  loadsIssued : List ℕ
deriving DecidableEq

/-- The state right after the factory call: `imageArray = []`,
`imageCount` undefined, no observer. -/
def initialState : CtrlState := ⟨[], none, none, [], 0, []⟩

/-- The Watcher instances created so far that have not been disconnected. -/
def liveWatchers (s : CtrlState) : List Watcher :=
  s.watchers.filter (·.connected)

/-- `observer.disconnect()`: the instance stops watching all targets. -/
def disconnectWatcher (ws : List Watcher) (wid : ℕ) : List Watcher :=
  ws.map (fun w => if w.id = wid then { w with connected := false, observed := [] } else w)

/-- `observer.unobserve(image)`. -/
def unobserveElem (ws : List Watcher) (wid eid : ℕ) : List Watcher :=
  ws.map (fun w => if w.id = wid then { w with observed := w.observed.erase eid } else w)

/-- `observeImages`: call `observe` on each element; observing an element
already observed by the instance is a no-op. -/
def observeElems (ws : List Watcher) (wid : ℕ) (eids : List ℕ) : List Watcher :=
  ws.map (fun w =>
    if w.id = wid then
      { w with observed := eids.foldl (fun obs e => if e ∈ obs then obs else obs ++ [e]) w.observed }
    else w)

/-- `resetState`: returns immediately when `observer` is null; otherwise
disconnects the observer, clears it, empties `imageArray` and zeroes
`imageCount`. -/
def resetState (s : CtrlState) : CtrlState :=
  match s.observer with
  | none => s
  | some wid =>
      { s with
        watchers := disconnectWatcher s.watchers wid,
        observer := none,
        imageArray := [],
        imageCount := some 0 }

/-- The element ids returned by `getElementsAsArray(selector)`. -/
def scanDoc (doc : List Elem) : List ℕ :=
  (getElementsAsArray doc).map (·.id)

/-- `init`: validate the configuration (throwing aborts with the state
unchanged); scan the document and set `imageArray`/`imageCount`; return if
no element was found; if IntersectionObserver is unsupported
(`ioSupported = false`), dispatch a load for every scanned element and
return without creating a Watcher; otherwise create a fresh Watcher
(without disconnecting any previous one) and observe every scanned
element. -/
def init (cfg : Config) (ioSupported : Bool) (doc : List Elem) (s : CtrlState) :
    Except String CtrlState :=
  match handleConfigErrors cfg with
  | .error e => .error e
  | .ok _ =>
      let arr := scanDoc doc
      let s := { s with imageArray := arr, imageCount := some (arr.length : ℤ) }
      if arr.length = 0 then .ok s
      else if !ioSupported then .ok { s with loadsIssued := s.loadsIssued ++ arr }
      else
        let wid := s.nextWatcherId
        let s :=
          { s with
            observer := some wid,
            watchers := s.watchers ++ [Watcher.mk wid true []],
            nextWatcherId := wid + 1 }
        .ok { s with watchers := observeElems s.watchers wid arr }

/-- `update`: returns immediately when `observer` is null; otherwise
rescans the document, overwrites `imageArray`/`imageCount` with the rescan
result, and (when non-empty) observes every rescanned element with the
existing Watcher. -/
def update (doc : List Elem) (s : CtrlState) : CtrlState :=
  match s.observer with
  | none => s
  | some wid =>
      let arr := scanDoc doc
      let s := { s with imageArray := arr, imageCount := some (arr.length : ℤ) }
      if arr.length = 0 then s
      else { s with watchers := observeElems s.watchers wid arr }

/-- One `IntersectionObserverEntry`. -/
structure Entry where
  target : ℕ
  isIntersecting : Bool
deriving DecidableEq

/-- The `entries.forEach` body of `onEntry`: a non-intersecting entry is
skipped; an intersecting one decrements `imageCount` (decrementing an
undefined count gives `NaN`, modelled by `none`), unobserves the target
and dispatches its load. -/
def processEntry (s : CtrlState) (entry : Entry) : CtrlState :=
  if !entry.isIntersecting then s
  else
    { s with
      imageCount := s.imageCount.map (· - 1),
      watchers :=
        match s.observer with
        | some wid => unobserveElem s.watchers wid entry.target
        | none => s.watchers,
      loadsIssued := s.loadsIssued ++ [entry.target] }

/-- `onEntry`: process every entry of the batch, then reset the state when
`imageCount === 0`. -/
def onEntry (entries : List Entry) (s : CtrlState) : CtrlState :=
  let s := entries.foldl processEntry s
  if s.imageCount = some 0 then resetState s else s

/-- `destroy`: delegates to `resetState`. -/
def destroy (s : CtrlState) : CtrlState := resetState s

/-! ## Concrete elements, configurations and states used in the theorems -/

/-- An eligible element with a primary deferred-resource reference. -/
def elemA : Elem := ⟨0, true, some "a.jpg", none, none, none, []⟩

/-- A second eligible element. -/
def elemB : Elem := ⟨1, true, some "b.jpg", none, none, none, []⟩

/-- An element matching the selector but with neither `data-src` nor
`data-srcset`. -/
def elemNoRefs : Elem := ⟨2, true, none, none, none, none, []⟩

/-- A document with one eligible element. -/
def doc1 : List Elem := [elemA]

/-- A document with two eligible elements. -/
def doc2 : List Elem := [elemA, elemB]

/-- Loader configuration with both callbacks provided and non-throwing. -/
def plainCfg : LoaderCfg := ⟨"has-loaded", "has-error", ⟨true, false⟩, ⟨true, false⟩⟩

/-- Loader configuration whose load callback throws; the error callback is
provided and does not throw. -/
def throwCfg : LoaderCfg := ⟨"has-loaded", "has-error", ⟨true, true⟩, ⟨true, false⟩⟩

/-! ## Concrete controller states reached in the scenarios -/

/-- State after `init` on `doc1` without IntersectionObserver support:
one load issued, no Watcher, but `imageArray`/`imageCount` still populated. -/
def fallbackState : CtrlState := ⟨[0], some 1, none, [], 0, [0]⟩

/-- State after `init` on `doc2` with IntersectionObserver support. -/
def twoTrackedState : CtrlState :=
  ⟨[0, 1], some 2, some 0, [Watcher.mk 0 true [0, 1]], 1, []⟩

/-- State after `init` on `doc1` with IntersectionObserver support. -/
def oneTrackedState : CtrlState :=
  ⟨[0], some 1, some 0, [Watcher.mk 0 true [0]], 1, []⟩

/-- State after a second `init` on `doc1` from `oneTrackedState`: a second
Watcher exists and the first was never disconnected. -/
def twoWatcherState : CtrlState :=
  ⟨[0], some 1, some 1, [Watcher.mk 0 true [0], Watcher.mk 1 true [0]], 2, []⟩

/-- State after a notification batch from `twoTrackedState` in which only
element 0 intersected: its load is dispatched, the count drops to 1, but
`imageArray` still holds both elements. -/
def partialBatchState : CtrlState :=
  ⟨[0, 1], some 1, some 0, [Watcher.mk 0 true [1]], 1, [0]⟩

/-! ## Helper lemmas about the loader -/

/-- `applyImage` always strips both data attributes, reports the load
callback as invoked iff it is present, and throws iff a present load
callback throws. -/
theorem applyImage_spec (cfg : LoaderCfg) (img : Elem) (src srcset : Option String) :
    (applyImage cfg img src srcset).1.dataSrc = none ∧
    (applyImage cfg img src srcset).1.dataSrcset = none ∧
    (applyImage cfg img src srcset).2.1 = cfg.loadCallback.present ∧
    (applyImage cfg img src srcset).2.2 = (cfg.loadCallback.present && cfg.loadCallback.throws) := by
  simp only [applyImage, stripDataAttributes]
  split_ifs <;> simp_all

/-- `handleImageError` always strips both data attributes, leaves the
element carrying the error class, reports the error callback as invoked iff
present, and throws iff a present error callback throws. -/
theorem handleImageError_spec (cfg : LoaderCfg) (img : Elem) :
    (handleImageError cfg img).1.dataSrc = none ∧
    (handleImageError cfg img).1.dataSrcset = none ∧
    cfg.errorClass ∈ (handleImageError cfg img).1.classes ∧
    (handleImageError cfg img).2.1 = cfg.errorCallback.present ∧
    (handleImageError cfg img).2.2 = (cfg.errorCallback.present && cfg.errorCallback.throws) := by
  simp only [handleImageError, stripDataAttributes]
  split_ifs <;> simp_all

/-- With both URL arguments absent, the synchronous `reject()` is the first
settlement, whatever the probe image later fires. -/
theorem fetchImages_no_refs (events : List ImgEvent) :
    fetchImages none none events = some Settle.rejected := by
  simp [fetchImages, truthyAttr]

/-! ## C6 -/

/-- C6 (confirmed): for an element with neither `data-src` nor
`data-srcset`, the promise returned by `fetchImages` rejects — first and
regardless of any later probe events — so the load never takes the success
path and takes the failure path exactly when an error callback is
configured. -/
theorem load_without_refs_rejects (cfg : LoaderCfg) (img : Elem) (events : List ImgEvent)
    (h1 : img.dataSrc = none) (h2 : img.dataSrcset = none) :
    fetchImages img.dataSrc img.dataSrcset events = some Settle.rejected ∧
    (∀ u v, fetchImages img.dataSrc img.dataSrcset events ≠ some (Settle.resolved u v)) ∧
    (loadImage cfg img events).loadCallbackInvoked = false ∧
    (loadImage cfg img events).errorCallbackInvoked = cfg.errorCallback.present := by
  have hf : fetchImages img.dataSrc img.dataSrcset events = some Settle.rejected := by
    rw [h1, h2]; exact fetchImages_no_refs events
  refine ⟨hf, ?_, ?_, ?_⟩
  · intro u v hres
    rw [hf] at hres
    simp at hres
  · simp [loadImage, hf]
  · simp [loadImage, hf, (handleImageError_spec cfg img).2.2.2.1]

/-- Witness for C6 at a concrete element and event trace. -/
theorem load_without_refs_rejects_witness :
    fetchImages elemNoRefs.dataSrc elemNoRefs.dataSrcset [ImgEvent.load] = some Settle.rejected ∧
    (∀ u v, fetchImages elemNoRefs.dataSrc elemNoRefs.dataSrcset [ImgEvent.load] ≠ some (Settle.resolved u v)) ∧
    (loadImage plainCfg elemNoRefs [ImgEvent.load]).loadCallbackInvoked = false ∧
    (loadImage plainCfg elemNoRefs [ImgEvent.load]).errorCallbackInvoked = plainCfg.errorCallback.present :=
  load_without_refs_rejects plainCfg elemNoRefs [ImgEvent.load] rfl rfl

/-! ## C7 -/

/-- C7 (confirmed): whenever the fetch promise settles (success or
failure), the load strips both deferred-resource attributes, so the element
is marked resolved and excluded from any future eligibility scan; with
non-throwing callbacks no exception escapes the chain, so a load error
never surfaces as a raised error. -/
theorem load_always_strips (cfg : LoaderCfg) (img : Elem) (events : List ImgEvent)
    (st : Settle) (hst : fetchImages img.dataSrc img.dataSrcset events = some st)
    (hl : cfg.loadCallback.throws = false) (he : cfg.errorCallback.throws = false) :
    (loadImage cfg img events).img.dataSrc = none ∧
    (loadImage cfg img events).img.dataSrcset = none ∧
    hasNotBeenLoaded (loadImage cfg img events).img = false ∧
    (loadImage cfg img events).uncaught = false := by
  cases st with
  | resolved u v =>
      have ha := applyImage_spec cfg img u v
      have hthrow : (applyImage cfg img u v).2.2 = false := by
        rw [ha.2.2.2, hl, Bool.and_false]
      simp [loadImage, hst, hthrow, hasNotBeenLoaded, ha.1, ha.2.1]
  | rejected =>
      have hh := handleImageError_spec cfg img
      have huncaught : (handleImageError cfg img).2.2 = false := by
        rw [hh.2.2.2.2, he, Bool.and_false]
      simp [loadImage, hst, hasNotBeenLoaded, hh.1, hh.2.1, huncaught]

/-- Witness for C7 at a concrete element and a failing probe. -/
theorem load_always_strips_witness :
    (loadImage plainCfg elemA [ImgEvent.error]).img.dataSrc = none ∧
    (loadImage plainCfg elemA [ImgEvent.error]).img.dataSrcset = none ∧
    hasNotBeenLoaded (loadImage plainCfg elemA [ImgEvent.error]).img = false ∧
    (loadImage plainCfg elemA [ImgEvent.error]).uncaught = false :=
  load_always_strips plainCfg elemA [ImgEvent.error] Settle.rejected rfl rfl rfl

/-! ## C4 -/

/-- C4 counterexample: a successful load whose configured success callback
throws. The claim says the exception propagates and the failure path is not
taken; in the code the `then`-handler's exception is caught by the chained
`catch`, which adds the failure class and invokes the failure callback, and
nothing escapes. -/
theorem success_callback_throw_cex :
    (loadImage throwCfg elemA [ImgEvent.load]).errorCallbackInvoked = true ∧
    "has-error" ∈ (loadImage throwCfg elemA [ImgEvent.load]).img.classes ∧
    (loadImage throwCfg elemA [ImgEvent.load]).uncaught = false := by decide

/-- C4 (corrected): an exception thrown by the success callback is caught
by the load chain's rejection handler, which then runs the failure path on
the element (failure class added, failure callback invoked when present);
the exception reaches the embedding environment only if the failure
callback itself throws. -/
theorem success_callback_caught (cfg : LoaderCfg) (img : Elem) (events : List ImgEvent)
    (u v : Option String)
    (hf : fetchImages img.dataSrc img.dataSrcset events = some (Settle.resolved u v))
    (hp : cfg.loadCallback.present = true) (ht : cfg.loadCallback.throws = true) :
    (loadImage cfg img events).errorCallbackInvoked = cfg.errorCallback.present ∧
    cfg.errorClass ∈ (loadImage cfg img events).img.classes ∧
    (loadImage cfg img events).uncaught = (cfg.errorCallback.present && cfg.errorCallback.throws) := by
  have ha := applyImage_spec cfg img u v
  have hthrow : (applyImage cfg img u v).2.2 = true := by
    rw [ha.2.2.2, hp, ht]; rfl
  have hh := handleImageError_spec cfg (applyImage cfg img u v).1
  simp [loadImage, hf, hthrow, hh.2.2.1, hh.2.2.2.1, hh.2.2.2.2]

/-- Witness for C4 at a concrete element, configuration and event trace. -/
theorem success_callback_caught_witness :
    (loadImage throwCfg elemA [ImgEvent.load]).errorCallbackInvoked = throwCfg.errorCallback.present ∧
    throwCfg.errorClass ∈ (loadImage throwCfg elemA [ImgEvent.load]).img.classes ∧
    (loadImage throwCfg elemA [ImgEvent.load]).uncaught = (throwCfg.errorCallback.present && throwCfg.errorCallback.throws) :=
  success_callback_caught throwCfg elemA [ImgEvent.load] (some "a.jpg") none rfl rfl rfl

/-! ## C8 -/

/-- C8 (confirmed): validation raises exactly for the first string option
(in declaration order) that is present but not a non-empty string, naming
that field; otherwise it raises for an invalid threshold; and it succeeds
if and only if every present string option is a non-empty string and the
threshold is a number in the closed interval from 0 to 1. -/
theorem handleConfigErrors_characterization (c : Config) :
    handleConfigErrors c =
      (match firstBadStringOption c with
       | some f => Except.error (stringOptionError f)
       | none =>
           if thresholdOk c then Except.ok () else Except.error thresholdError) ∧
    (handleConfigErrors c = Except.ok () ↔
      allStringOptionsOk c = true ∧ thresholdOk c = true) := by
  constructor
  · unfold handleConfigErrors firstBadStringOption thresholdOk
    cases hfind : (stringOptionsMap c).find? (fun p => badStringOption p.2) with
    | some p => rfl
    | none => by_cases hb : thresholdBad c.threshold <;> simp [hb]
  · unfold handleConfigErrors allStringOptionsOk thresholdOk
    cases hfind : (stringOptionsMap c).find? (fun p => badStringOption p.2) with
    | some p =>
        constructor
        · intro h; simp at h
        · rintro ⟨hall, -⟩
          have hmem := List.mem_of_find?_eq_some hfind
          have hbad := List.find?_some hfind
          have hgood := List.all_eq_true.mp hall p hmem
          rw [hbad] at hgood
          exact absurd hgood (by decide)
    | none =>
        by_cases hb : thresholdBad c.threshold
        · constructor
          · intro h; simp [hb] at h
          · rintro ⟨-, hok⟩; rw [hb] at hok; exact absurd hok (by decide)
        · constructor
          · intro _
            refine ⟨List.all_eq_true.mpr ?_, by simp [hb]⟩
            intro p hp
            have := List.find?_eq_none.mp hfind p hp
            simp_all
          · intro _
            simp [hb]

/-- Witness for C8: a configuration whose first offending field is the
selector, and the all-valid default configuration. -/
theorem handleConfigErrors_characterization_witness :
    (handleConfigErrors (lazily { noOptions with selector := .num .nan }) =
      Except.error (stringOptionError "selector")) ∧
    (handleConfigErrors defaultConfig = Except.ok ()) := by
  constructor
  · have h := (handleConfigErrors_characterization (lazily { noOptions with selector := .num .nan })).1
    rw [h]; rfl
  · have h := (handleConfigErrors_characterization defaultConfig).2
    exact h.mpr (by decide)

/-! ## C10 -/

/-- C10 (confirmed): the validator treats a string option as absent only
when it is `undefined`; explicitly passing `null` or any other non-string
value for any of the five string options makes `init`'s validation raise
the configuration error naming that field. -/
theorem validator_rejects_nonstring_options (v : JSVal)
    (h1 : v ≠ JSVal.undef) (h2 : ∀ s, v ≠ JSVal.str s) :
    handleConfigErrors (lazily { noOptions with selector := v }) =
      Except.error (stringOptionError "selector") ∧
    handleConfigErrors (lazily { noOptions with loadClass := v }) =
      Except.error (stringOptionError "loadClass") ∧
    handleConfigErrors (lazily { noOptions with errorClass := v }) =
      Except.error (stringOptionError "errorClass") ∧
    handleConfigErrors (lazily { noOptions with rootId := v }) =
      Except.error (stringOptionError "rootId") ∧
    handleConfigErrors (lazily { noOptions with rootMargin := v }) =
      Except.error (stringOptionError "rootMargin") := by
  cases v with
  | undef => exact absurd rfl h1
  | str s => exact absurd rfl (h2 s)
  | null => exact ⟨rfl, rfl, rfl, rfl, rfl⟩
  | num n => exact ⟨rfl, rfl, rfl, rfl, rfl⟩
  | bool b => exact ⟨rfl, rfl, rfl, rfl, rfl⟩
  | fn => exact ⟨rfl, rfl, rfl, rfl, rfl⟩
  | obj => exact ⟨rfl, rfl, rfl, rfl, rfl⟩

/-- Witness for C10 at `null`, the documented default of `rootId`. -/
theorem validator_rejects_nonstring_options_witness :
    handleConfigErrors (lazily { noOptions with rootId := JSVal.null }) =
      Except.error (stringOptionError "rootId") :=
  (validator_rejects_nonstring_options JSVal.null (by decide)
    (fun s h => JSVal.noConfusion h)).2.2.2.1

/-! ## C9 -/

/-- C9 (confirmed): with a valid configuration and no IntersectionObserver
support, `init` creates no Watcher (observer and watcher log untouched) and
dispatches a load for every eligible element, in document order. -/
theorem init_no_observer_fallback (cfg : Config) (doc : List Elem) (s : CtrlState)
    (h : handleConfigErrors cfg = Except.ok ()) :
    init cfg false doc s = Except.ok
      { s with imageArray := scanDoc doc,
               imageCount := some ((scanDoc doc).length : ℤ),
               loadsIssued := s.loadsIssued ++ scanDoc doc } := by
  unfold init
  rw [h]
  by_cases h0 : (scanDoc doc).length = 0
  · have harr : scanDoc doc = [] := List.length_eq_zero.mp h0
    simp [harr]
  · simp [h0]

/-- Witness for C9: one eligible element in the document, exactly one load
issued. -/
theorem init_no_observer_fallback_witness :
    init defaultConfig false doc1 initialState = Except.ok
      { initialState with imageArray := scanDoc doc1,
                          imageCount := some ((scanDoc doc1).length : ℤ),
                          loadsIssued := initialState.loadsIssued ++ scanDoc doc1 } ∧
    (initialState.loadsIssued ++ scanDoc doc1).length = 1 :=
  ⟨init_no_observer_fallback defaultConfig doc1 initialState (by decide), by decide⟩

/-! ## C3 -/

/-- C3 (code bug): on the fallback path (no IntersectionObserver), `init`
leaves `observer` null, so the subsequent `destroy()` hits `resetState`'s
early return and changes nothing — `imageCount` stays 1 and `imageArray`
non-empty, not the claimed fresh-equivalent state, contradicting
`destroy`'s own documentation ("Empties the `imageArray` … & resets the
count variable"). -/
theorem destroy_fallback_state_bug :
    init defaultConfig false doc1 initialState = Except.ok fallbackState ∧
    destroy fallbackState = fallbackState ∧
    fallbackState.observer = none ∧
    fallbackState.imageCount = some 1 ∧
    fallbackState.imageArray ≠ [] := by decide

/-! ## C1 -/

/-- The `entries.forEach` loop of `onEntry` decrements the count once per
intersecting entry and never touches `imageArray` or `observer`. -/
theorem foldl_processEntry_spec (entries : List Entry) (s : CtrlState) :
    (entries.foldl processEntry s).imageCount
      = s.imageCount.map (· - ((entries.filter (fun e => e.isIntersecting)).length : ℤ)) ∧
    (entries.foldl processEntry s).imageArray = s.imageArray ∧
    (entries.foldl processEntry s).observer = s.observer := by
  induction entries generalizing s with
  | nil =>
      refine ⟨?_, rfl, rfl⟩
      cases hc : s.imageCount <;> simp [hc]
  | cons e es ih =>
      obtain ⟨h1, h2, h3⟩ := ih (processEntry s e)
      rw [List.foldl_cons]
      cases hI : e.isIntersecting with
      | false =>
          have hpe : processEntry s e = s := by simp [processEntry, hI]
          rw [hpe] at h1 h2 h3
          rw [hpe]
          refine ⟨?_, h2, h3⟩
          rw [h1]
          simp [List.filter_cons, hI]
      | true =>
          have hcount : (processEntry s e).imageCount = s.imageCount.map (· - 1) := by
            simp [processEntry, hI]
          have harr : (processEntry s e).imageArray = s.imageArray := by
            simp [processEntry, hI]
          have hobs : (processEntry s e).observer = s.observer := by
            simp [processEntry, hI]
          refine ⟨?_, h2.trans harr, h3.trans hobs⟩
          rw [h1, hcount]
          cases hc : s.imageCount with
          | none => simp
          | some c =>
              simp only [hc, Option.map_some', List.filter_cons, hI, if_true,
                List.length_cons, Option.some.injEq]
              push_cast
              ring

/-- C1 counterexample: starting from the state `init` reaches on a
two-element document, a notification batch in which one element intersects
leaves `pendingCount = 1` while `trackedElements` still has 2 entries, so
the claimed invariant fails at that quiescent point. -/
theorem pendingCount_mismatch_cex :
    init defaultConfig true doc2 initialState = Except.ok twoTrackedState ∧
    (onEntry [Entry.mk 0 true] twoTrackedState).imageCount = some 1 ∧
    (onEntry [Entry.mk 0 true] twoTrackedState).imageArray.length = 2 ∧
    (onEntry [Entry.mk 0 true] twoTrackedState).imageCount ≠
      some (((onEntry [Entry.mk 0 true] twoTrackedState).imageArray.length : ℤ)) := by decide

/-- C1 (corrected): a notification batch decrements `pendingCount` once per
intersecting element but does not remove those elements from
`trackedElements`; the equality `pendingCount = |trackedElements|` survives
a batch only when the batch drains the count to zero, in which case the
state is reset and both are zero. -/
theorem onEntry_partial_batch (s : CtrlState) (entries : List Entry) (c : ℤ)
    (hc : s.imageCount = some c) :
    (c - ((entries.filter (fun e => e.isIntersecting)).length : ℤ) ≠ 0 →
       (onEntry entries s).imageCount
         = some (c - ((entries.filter (fun e => e.isIntersecting)).length : ℤ)) ∧
       (onEntry entries s).imageArray = s.imageArray) ∧
    (c - ((entries.filter (fun e => e.isIntersecting)).length : ℤ) = 0 →
       ∀ wid, s.observer = some wid →
       (onEntry entries s).imageCount = some 0 ∧
       (onEntry entries s).imageArray = []) := by
  obtain ⟨h1, h2, h3⟩ := foldl_processEntry_spec entries s
  rw [hc, Option.map_some'] at h1
  simp only [onEntry]
  constructor
  · intro hne
    have hcond : ¬((entries.foldl processEntry s).imageCount = some 0) := by
      rw [h1]; simp [hne]
    rw [if_neg hcond]
    exact ⟨h1, h2⟩
  · intro heq wid hwid
    have hcond : (entries.foldl processEntry s).imageCount = some 0 := by
      rw [h1, heq]
    rw [if_pos hcond]
    unfold resetState
    rw [h3.trans hwid]
    exact ⟨rfl, rfl⟩

/-- Witness for C1 at a concrete state and batch (partial batch: count
drops to 1, tracked elements unchanged). -/
theorem onEntry_partial_batch_witness :
    (onEntry [Entry.mk 0 true] twoTrackedState).imageCount = some 1 ∧
    (onEntry [Entry.mk 0 true] twoTrackedState).imageArray = twoTrackedState.imageArray := by
  have h := (onEntry_partial_batch twoTrackedState [Entry.mk 0 true] 2 rfl).1 (by decide)
  refine ⟨?_, h.2⟩
  rw [h.1]
  decide

/-! ## C2 -/

/-- `observe` calls change only what an instance watches, never its
identity or connectedness. -/
theorem observeElems_idConn (ws : List Watcher) (wid : ℕ) (eids : List ℕ) :
    (observeElems ws wid eids).map (fun w => (w.id, w.connected))
      = ws.map (fun w => (w.id, w.connected)) := by
  unfold observeElems
  rw [List.map_map]
  induction ws with
  | nil => rfl
  | cons w ws ih =>
      simp only [List.map_cons]
      rw [ih]
      congr 1
      dsimp [Function.comp]
      split <;> rfl

/-- C2 counterexample: two consecutive `init` calls on a document with one
eligible element give two connected Watcher instances — the first is never
disconnected, refuting "at most one live Watcher". -/
theorem two_live_watchers_cex :
    init defaultConfig true doc1 initialState = Except.ok oneTrackedState ∧
    init defaultConfig true doc1 oneTrackedState = Except.ok twoWatcherState ∧
    (liveWatchers twoWatcherState).length = 2 ∧
    ¬((liveWatchers twoWatcherState).length ≤ 1) := by decide

/-- C2 (corrected): `init` never destroys the previously active Watcher:
every existing Watcher instance keeps its identity and its connected flag,
and at most one new (connected) instance is appended; only the reference
(`observer`) is replaced. -/
theorem init_keeps_previous_watchers (cfg : Config) (io : Bool) (doc : List Elem)
    (s s' : CtrlState) (h : init cfg io doc s = Except.ok s') :
    ∃ t, s'.watchers.map (fun w => (w.id, w.connected))
           = s.watchers.map (fun w => (w.id, w.connected)) ++ t ∧
         t.length ≤ 1 ∧ ∀ p ∈ t, p.2 = true := by
  unfold init at h
  cases hv : handleConfigErrors cfg with
  | error e => rw [hv] at h; exact Except.noConfusion h
  | ok u =>
      cases u
      rw [hv] at h
      simp only at h
      by_cases h0 : (scanDoc doc).length = 0
      · rw [if_pos h0] at h
        have hs' : s' = { s with imageArray := scanDoc doc,
                                 imageCount := some ((scanDoc doc).length : ℤ) } := by
          injection h with h
          exact h.symm
        refine ⟨[], by rw [hs']; simp, by simp, by simp⟩
      · rw [if_neg h0] at h
        cases hio : io with
        | false =>
            rw [hio] at h
            simp only [Bool.not_false, if_true] at h
            have hs' : s' = { s with imageArray := scanDoc doc,
                                     imageCount := some ((scanDoc doc).length : ℤ),
                                     loadsIssued := s.loadsIssued ++ scanDoc doc } := by
              injection h with h
              exact h.symm
            refine ⟨[], by rw [hs']; simp, by simp, by simp⟩
        | true =>
            rw [hio] at h
            simp only [Bool.not_true, Bool.false_eq_true, if_false] at h
            have hs' : s' =
                { s with imageArray := scanDoc doc,
                         imageCount := some ((scanDoc doc).length : ℤ),
                         observer := some s.nextWatcherId,
                         watchers := observeElems (s.watchers ++ [Watcher.mk s.nextWatcherId true []])
                                       s.nextWatcherId (scanDoc doc),
                         nextWatcherId := s.nextWatcherId + 1 } := by
              injection h with h
              exact h.symm
            refine ⟨[(s.nextWatcherId, true)], ?_, by simp, ?_⟩
            · rw [hs']
              show (observeElems (s.watchers ++ [Watcher.mk s.nextWatcherId true []])
                      s.nextWatcherId (scanDoc doc)).map (fun w => (w.id, w.connected)) = _
              rw [observeElems_idConn]
              simp
            · intro p hp
              rw [List.mem_singleton] at hp
              rw [hp]

/-- Witness for C2 at the concrete double-`init` run. -/
theorem init_keeps_previous_watchers_witness :
    ∃ t, twoWatcherState.watchers.map (fun w => (w.id, w.connected))
           = oneTrackedState.watchers.map (fun w => (w.id, w.connected)) ++ t ∧
         t.length ≤ 1 ∧ ∀ p ∈ t, p.2 = true :=
  init_keeps_previous_watchers defaultConfig true doc1 oneTrackedState twoWatcherState
    (by decide)

/-! ## C5 -/

/-- C5 counterexample: after a partial batch (element 0 dispatched,
count = 1), a rescan finds no elements beyond those already tracked, yet
`update` sets `pendingCount` to 2 — the code overwrites the count with the
rescan's size instead of increasing it by the number of newly added
elements (0). -/
theorem update_count_overwrite_cex :
    init defaultConfig true doc2 initialState = Except.ok twoTrackedState ∧
    onEntry [Entry.mk 0 true] twoTrackedState = partialBatchState ∧
    partialBatchState.imageCount = some 1 ∧
    scanDoc doc2 = partialBatchState.imageArray ∧
    (update doc2 partialBatchState).imageCount = some 2 ∧
    (update doc2 partialBatchState).imageCount ≠ some 1 := by decide

/-- C5 (corrected): `update` is a no-op with no active Watcher; otherwise
it replaces `trackedElements` with the full rescan of currently eligible
elements (not only newly eligible ones), sets `pendingCount` to the
rescan's size (which can exceed its previous value, as dispatched but
unresolved elements are rescanned), and registers every rescanned element
with the existing Watcher. -/
theorem update_replaces_tracked (doc : List Elem) (s : CtrlState) :
    (s.observer = none → update doc s = s) ∧
    (∀ wid, s.observer = some wid →
       (update doc s).imageArray = scanDoc doc ∧
       (update doc s).imageCount = some ((scanDoc doc).length : ℤ) ∧
       (update doc s).observer = s.observer ∧
       (update doc s).loadsIssued = s.loadsIssued ∧
       (update doc s).watchers =
         (if (scanDoc doc).length = 0 then s.watchers
          else observeElems s.watchers wid (scanDoc doc))) := by
  constructor
  · intro h
    unfold update
    rw [h]
  · intro wid h
    unfold update
    rw [h]
    by_cases h0 : (scanDoc doc).length = 0 <;> simp [h0]

/-- Witness for C5: the no-op case on a Watcher-less state and the
overwrite case on the partial-batch state. -/
theorem update_replaces_tracked_witness :
    update doc2 fallbackState = fallbackState ∧
    (update doc2 partialBatchState).imageCount = some 2 := by
  constructor
  · exact (update_replaces_tracked doc2 fallbackState).1 rfl
  · have h := ((update_replaces_tracked doc2 partialBatchState).2 0 rfl).2.1
    rw [h]
    decide

end Lazily
